import Mathlib

/-!
Verification of the worktree lifecycle and branch-safety core of the `grv`
repository (a git-worktree manager, with its near-identical earlier variants
`grove` and `gtwsp`).

The Python sources are shallowly embedded: pure string manipulation becomes
functions on `List Char` (wrapped in `String` at the boundaries), subprocess
interaction is modelled by environments that record the stdout/exit-code each
git invocation would produce, and the functions additionally return the exact
trace of commands they would issue, so that claims about "which git command was
run with which arguments" become statements about those traces.

Conventions for the Python-builtin helpers (all named `py...`):
  * `str.strip()` with no argument strips ASCII whitespace on both ends.
  * `str.split(sep)` with a one-character separator splits on every occurrence
    and never drops empty pieces.
  * `int(s)` accepts an optional sign followed by one or more digits and fails
    (ValueError) otherwise; the CPython extras (underscores between digits,
    unicode digits) are outside the model.
-/

namespace Grv

/-- Characters Python's default `str.strip()` removes (ASCII whitespace). -/
def pyIsSpace (c : Char) : Bool :=
  c = ' ' || c = '\t' || c = '\n' || c = '\r' || c = '\x0b' || c = '\x0c'

/-- `s.lstrip()` on the character list, for an arbitrary character predicate. -/
def lstripBy (p : Char → Bool) (l : List Char) : List Char :=
  l.dropWhile p

/-- `s.rstrip()` on the character list, for an arbitrary character predicate. -/
def rstripBy (p : Char → Bool) (l : List Char) : List Char :=
  (l.reverse.dropWhile p).reverse

/-- Python `s.strip()` (default whitespace) on a character list. -/
def pyStripL (l : List Char) : List Char :=
  rstripBy pyIsSpace (lstripBy pyIsSpace l)

/-- Python `s.strip()` on a `String`. -/
def pyStrip (s : String) : String :=
  ⟨pyStripL s.data⟩

/-- Python `s.split(sep)` for a one-character separator: splits on every
occurrence, keeping empty pieces; the result is never empty. -/
def pySplitChar (sep : Char) : List Char → List (List Char)
  | [] => [[]]
  | c :: cs =>
    let r := pySplitChar sep cs
    if c = sep then [] :: r
    else
      match r with
      | [] => [[c]]
      | h :: t => (c :: h) :: t

/-- Python `s.split(sep, 1)` returning the two pieces, or `none` when the
separator does not occur (in which case `a, b = s.split(sep, 1)` raises). -/
def pySplit1 (sep : Char) : List Char → Option (List Char × List Char)
  | [] => none
  | c :: cs =>
    if c = sep then some ([], cs)
    else
      match pySplit1 sep cs with
      | some (a, b) => some (c :: a, b)
      | none => none

/-- Python `s.removesuffix(suf)`. -/
def pyRemoveSuffix (suf : List Char) (l : List Char) : List Char :=
  if suf.isSuffixOf l then l.take (l.length - suf.length) else l

/-- Python `int(s)`: optional sign, then one or more ASCII digits. -/
def pyInt (l : List Char) : Option Int :=
  let (sign, digits) :=
    match l with
    | '-' :: rest => ((-1 : Int), rest)
    | '+' :: rest => ((1 : Int), rest)
    | rest => ((1 : Int), rest)
  if digits ≠ [] && digits.all Char.isDigit then
    some (sign * Int.ofNat (digits.foldl (fun n c => 10 * n + (c.toNat - '0'.toNat)) 0))
  else
    none

/-- Python `needle in haystack` for strings: contiguous-substring test. -/
def pyContains (needle : List Char) : List Char → Bool
  | [] => needle.isEmpty
  | c :: cs => needle.isPrefixOf (c :: cs) || pyContains needle cs

/-- Filesystem paths are modelled as their component lists (`Path.parts`). -/
abbrev PyPath := List String

/-- Python `str(path)`: components joined by the separator. -/
def pathStr (p : PyPath) : String :=
  String.intercalate "/" p

/-! ## `grv/status.py` — data model and safety predicate

`BranchStatus` is the dataclass from `src/grv/status.py` (the `grove` variant
in `src/grove/status.py` is textually identical).  `unpushed_commits` comes
from Python `int()` and is modelled as `Int`; the diff-stat counts come from
digit-only regex groups and are modelled as `Nat`. -/

structure BranchStatus where
  name : String
  path : PyPath
  has_remote : Bool
  is_merged : Bool
  unpushed_commits : Int
  uncommitted_changes : Nat
  insertions : Nat
  deletions : Nat
  deriving Repr, DecidableEq

/-- `BranchStatus.is_safe_to_clean` exactly as written in
`src/grv/status.py` lines 40–47 (and identically in `src/grove/status.py`
lines 31–38): it requires a remote counterpart unconditionally and never
consults `is_merged`. -/
def BranchStatus.is_safe_to_clean (s : BranchStatus) : Bool :=
  s.has_remote && s.unpushed_commits == 0 && s.uncommitted_changes == 0

/-- The safe-to-clean predicate as the specification words it ("safe to delete
iff `(has_remote AND unpushed_commits == 0 AND uncommitted_changes == 0)` OR
`(is_merged AND uncommitted_changes == 0)`").  Kept separate from the code's
predicate so the two can be compared. -/
def specSafeToClean (s : BranchStatus) : Bool :=
  (s.has_remote && s.unpushed_commits == 0 && s.uncommitted_changes == 0)
    || (s.is_merged && s.uncommitted_changes == 0)

/-- The branch state of `tests/test_status.py::test_is_safe_to_clean_merged_no_remote`:
merged, remote deleted after merge, nothing unpushed, nothing uncommitted. -/
def mergedNoRemote : BranchStatus :=
  { name := "feature"
    path := ["tmp", "feature"]
    has_remote := false
    is_merged := true
    unpushed_commits := 0
    uncommitted_changes := 0
    insertions := 0
    deletions := 0 }

/-- C1: the safe-to-clean predicate in the code is NOT the disjunctive
predicate the specification states.  On the merged-branch-whose-remote-was-
deleted state, the code's `is_safe_to_clean` answers `false` while the
specification's predicate (and the repository's own unit test
`test_is_safe_to_clean_merged_no_remote`, which asserts
`status.is_safe_to_clean is True` on exactly this state) requires `true`.
The code contradicts its own test suite here. -/
theorem c1_safe_to_clean_code_bug :
    mergedNoRemote.is_safe_to_clean = false ∧ specSafeToClean mergedNoRemote = true := by
  constructor <;> rfl

/-! ## `grv/config.py` — repository identity resolver

`extract_repo_id` (identical in `src/grv/config.py`, `src/grove/config.py`
and `src/gtwsp/config.py` up to the named constants) delegates URL parsing to
the stdlib's `urllib.parse.urlparse`; only `parsed.netloc` and `parsed.path`
are consumed.  That collaborator is modelled below by the scheme/netloc/path
computation of CPython's `urlsplit`, restricted to what the call site uses:
strip the unsafe bytes, split a well-formed `scheme:` prefix, take the netloc
after `//` up to the first `/ ? #`, and cut the path at the first `? #`.  The
stdlib's own `ValueError`s for malformed bracketed IPv6 hosts are outside this
model, which is total.

`extract_repo_id` itself can raise: in the `git@` branch the source runs
`host, path = host_and_path.split(":", 1)`, and the unpacking raises
`ValueError` when no colon is present.  The embedding therefore returns
`Except String String`. -/

/-- Characters CPython's `urlsplit` deletes from the URL before parsing. -/
def urlUnsafeByte (c : Char) : Bool :=
  c = '\t' || c = '\r' || c = '\n'

/-- Characters allowed in a URL scheme after the leading letter. -/
def isSchemeChar (c : Char) : Bool :=
  c.isAlpha || c.isDigit || c = '+' || c = '-' || c = '.'

/-- Index of the first occurrence of a character, if any (Python `s.find`). -/
def findChar (c : Char) : List Char → Option Nat
  | [] => none
  | x :: xs =>
    if x = c then some 0
    else
      match findChar c xs with
      | some i => some (i + 1)
      | none => none

/-- Drop a well-formed `scheme:` prefix, as `urlsplit` does: the first `:`
must come after at least one character, the first character must be a letter,
and everything before the `:` must be a scheme character. -/
def dropScheme (l : List Char) : List Char :=
  match findChar ':' l with
  | some i =>
    if 0 < i ∧ (l.headD ' ').isAlpha ∧ (l.take i).all isSchemeChar then
      l.drop (i + 1)
    else l
  | none => l

/-- A character that ends the netloc portion of a URL. -/
def netlocDelim (c : Char) : Bool :=
  c = '/' || c = '?' || c = '#'

/-- A character that starts the query or fragment portion. -/
def queryFragDelim (c : Char) : Bool :=
  c = '?' || c = '#'

/-- The `(netloc, path)` pair of `urllib.parse.urlparse`, for inputs where the
stdlib parser returns normally (see the section comment). -/
def pyUrlparseNetlocPath (l : List Char) : List Char × List Char :=
  let url := l.filter (fun c => !urlUnsafeByte c)
  let rest := dropScheme url
  if rest.take 2 = ['/', '/'] then
    let netloc := (rest.drop 2).takeWhile (fun c => !netlocDelim c)
    let after := (rest.drop 2).dropWhile (fun c => !netlocDelim c)
    (netloc, after.takeWhile (fun c => !queryFragDelim c))
  else
    ([], rest.takeWhile (fun c => !queryFragDelim c))

/-- The final sanitisation of `extract_repo_id`:
`.replace(".", "_").replace("/", "_").replace(":", "_")` (the three replaced
characters are distinct and replaced by `_`, so the sequence of replaces is a
single character map). -/
def sanitizeId (l : List Char) : List Char :=
  l.map (fun c => if c = '.' || c = '/' || c = ':' then '_' else c)

/-- `extract_repo_id` from `src/grv/config.py` lines 20–37 on character
lists.  `GIT_SSH_PREFIX = "git@"`, `GIT_SUFFIX = ".git"`. -/
def extractRepoIdL (repo : List Char) : Except String (List Char) :=
  if ['g', 'i', 't', '@'].isPrefixOf repo then
    let hostAndPath := repo.drop 4
    match pySplit1 ':' hostAndPath with
    | none => .error "ValueError: not enough values to unpack (expected 2, got 1)"
    | some (host, path0) =>
      let path := pyRemoveSuffix ['.', 'g', 'i', 't'] (rstripBy (· = '/') path0)
      .ok (sanitizeId (host ++ '/' :: path))
  else
    let (netloc, ppath) := pyUrlparseNetlocPath repo
    if netloc ≠ [] then
      let path := lstripBy (· = '/') (pyRemoveSuffix ['.', 'g', 'i', 't'] (rstripBy (· = '/') ppath))
      .ok (sanitizeId (netloc ++ '/' :: path))
    else
      .ok (sanitizeId (lstripBy (· = '/') (pyRemoveSuffix ['.', 'g', 'i', 't'] (rstripBy (· = '/') repo))))

/-- `extract_repo_id` on `String`s. -/
def extract_repo_id (repo : String) : Except String String :=
  (extractRepoIdL repo.data).map (fun l => ⟨l⟩)

/-- C2: the SSH form, the HTTPS form with `.git` suffix, and the HTTPS form
with a trailing slash all normalise to the identifier `github_com_user_repo`. -/
theorem c2_extract_repo_id_normalization :
    extract_repo_id "git@github.com:user/repo.git" = .ok "github_com_user_repo" ∧
    extract_repo_id "https://github.com/user/repo.git" = .ok "github_com_user_repo" ∧
    extract_repo_id "https://github.com/user/repo/" = .ok "github_com_user_repo" := by
  refine ⟨?_, ?_, ?_⟩ <;> rfl

/-- C3 counterexample: a string that begins with `git@` but contains no colon
makes `host, path = host_and_path.split(":", 1)` raise `ValueError`, so
`extract_repo_id` is not total. -/
theorem c3_counterexample :
    extract_repo_id "git@github.com"
      = .error "ValueError: not enough values to unpack (expected 2, got 1)" := by
  rfl

theorem pySplit1_isSome_of_mem {c : Char} {l : List Char} (h : c ∈ l) :
    ∃ a b, pySplit1 c l = some (a, b) := by
  induction l with
  | nil => cases h
  | cons x xs ih =>
    by_cases hx : x = c
    · exact ⟨[], xs, by simp [pySplit1, hx]⟩
    · have hmem : c ∈ xs := by
        rcases List.mem_cons.mp h with h1 | h1
        · exact absurd h1.symm hx
        · exact h1
      obtain ⟨a, b, hab⟩ := ih hmem
      exact ⟨x :: a, b, by simp [pySplit1, hx, hab]⟩

/-- C3 (amended): `extract_repo_id` returns an identifier on every input
except the strings beginning with `git@` whose remainder contains no colon;
on those the tuple unpacking in the SSH branch raises `ValueError`.
(Inputs on which the stdlib URL parser itself raises are outside the model.) -/
theorem c3_total_amended (s : String)
    (h : ['g', 'i', 't', '@'].isPrefixOf s.data → ':' ∈ s.data.drop 4) :
    ∃ r, extract_repo_id s = .ok r := by
  unfold extract_repo_id extractRepoIdL
  by_cases hp : ['g', 'i', 't', '@'].isPrefixOf s.data
  · obtain ⟨a, b, hab⟩ := pySplit1_isSome_of_mem (h hp)
    simp only [hp, if_true, hab]
    exact ⟨_, rfl⟩
  · simp only [hp, Bool.false_eq_true, if_false]
    split
    · exact ⟨_, rfl⟩
    · exact ⟨_, rfl⟩

/-- Closed witness for `c3_total_amended`: a plain local path takes the
raw-path fallback and still yields an identifier. -/
theorem c3_total_amended_witness :
    ∃ r, extract_repo_id "some/local/repo.git" = .ok r :=
  c3_total_amended "some/local/repo.git" (by decide)

/-! ## `grv/git.py` and `gtwsp/git.py` — worktree manager

`ensure_worktree` is embedded as a function from an environment (what the
filesystem and the git queries would answer) to the exact list of git argv
vectors the call would issue, in order.  `run_git` prepends `"git"`, and
`branch_exists_locally` issues its own `git show-ref` subprocess, so both
appear in the trace.  The environment records the stdout of the queries on
their success path; a failing `run_git` (`check=True`) raises and is fatal by
design, which is outside these traces. -/

structure WorktreeEnv where
  /-- `tree_path.exists()` at entry. -/
  treeExists : Bool
  /-- `branch_exists_locally`: `git show-ref --verify --quiet` returned 0. -/
  branchLocal : Bool
  /-- stdout of `git ls-remote --heads origin <branch>`. -/
  lsRemoteOut : String
  /-- stdout of `git symbolic-ref refs/remotes/origin/HEAD`. -/
  symbolicRefOut : String
  deriving Repr

/-- `get_default_branch` from `src/grv/git.py` lines 24–27 (identical in
`gtwsp`): `result.stdout.strip().split("/")[-1]`. -/
def get_default_branch (symbolicRefOut : String) : String :=
  ⟨(pySplitChar '/' (pyStripL symbolicRefOut.data)).getLastD []⟩

/-- The `git symbolic-ref` invocation performed by `get_default_branch`. -/
def symRefCmd : List String :=
  ["git", "symbolic-ref", "refs/remotes/origin/HEAD"]

/-- The `git show-ref` invocation performed by `branch_exists_locally`. -/
def showRefCmd (branch : String) : List String :=
  ["git", "show-ref", "--verify", "--quiet", "refs/heads/" ++ branch]

/-- `ensure_worktree` from `src/grv/git.py` lines 59–108, as the trace of git
invocations it issues.  Note the Python base-branch selection
`from_branch if from_branch else get_default_branch(base_path)` is by
truthiness, so an empty-string `from_branch` also falls back to the default
branch (and then `get_default_branch` runs its `symbolic-ref` query). -/
def ensure_worktree (env : WorktreeEnv) (treePath branch : String)
    (fromBranch : Option String) : List (List String) :=
  if env.treeExists then []
  else if env.branchLocal then
    [showRefCmd branch, ["git", "worktree", "add", treePath, branch]]
  else
    let lsRemoteCmd := ["git", "ls-remote", "--heads", "origin", branch]
    if pyStrip env.lsRemoteOut ≠ "" then
      [showRefCmd branch, lsRemoteCmd,
       ["git", "worktree", "add", "--track", "-b", branch, treePath, "origin/" ++ branch]]
    else
      let (symCmds, baseBranch) :=
        match fromBranch with
        | some b =>
          if b = "" then ([symRefCmd], get_default_branch env.symbolicRefOut) else ([], b)
        | none => ([symRefCmd], get_default_branch env.symbolicRefOut)
      [showRefCmd branch, lsRemoteCmd] ++ symCmds ++
        [["git", "worktree", "add", "-b", branch, treePath, "origin/" ++ baseBranch]]

/-- `ensure_worktree` from `src/gtwsp/git.py` lines 49–87: the earlier
variant.  It has no explicit base-branch parameter and — unlike the `grv`
version — passes the bare default-branch name (not `origin/<default>`) as the
start-point of the brand-new-branch `worktree add`. -/
def gtwsp_ensure_worktree (env : WorktreeEnv) (treePath branch : String) :
    List (List String) :=
  if env.treeExists then []
  else if env.branchLocal then
    [showRefCmd branch, ["git", "worktree", "add", treePath, branch]]
  else
    let lsRemoteCmd := ["git", "ls-remote", "--heads", "origin", branch]
    if pyStrip env.lsRemoteOut ≠ "" then
      [showRefCmd branch, lsRemoteCmd,
       ["git", "worktree", "add", "--track", "-b", branch, treePath, "origin/" ++ branch]]
    else
      [showRefCmd branch, lsRemoteCmd, symRefCmd,
       ["git", "worktree", "add", "-b", branch, treePath,
        get_default_branch env.symbolicRefOut]]

/-- C4: when the target worktree path already exists on disk, both
`ensure_worktree` implementations return immediately and issue no git
invocation at all, so a repeated call after a successful first call performs
zero additional git work. -/
theorem c4_ensure_worktree_idempotent (env : WorktreeEnv) (tp b : String)
    (fb : Option String) (h : env.treeExists = true) :
    ensure_worktree env tp b fb = [] ∧ gtwsp_ensure_worktree env tp b = [] := by
  constructor <;> simp [ensure_worktree, gtwsp_ensure_worktree, h]

/-- Closed witness for `c4_ensure_worktree_idempotent`. -/
theorem c4_ensure_worktree_idempotent_witness :
    ensure_worktree ⟨true, false, "", ""⟩ "/ws/tree" "feature" none = [] ∧
    gtwsp_ensure_worktree ⟨true, false, "", ""⟩ "/ws/tree" "feature" = [] :=
  c4_ensure_worktree_idempotent ⟨true, false, "", ""⟩ "/ws/tree" "feature" none rfl

/-- A brand-new-branch environment: worktree absent, branch neither local nor
on the remote, with default branch `main`. -/
def newBranchEnv : WorktreeEnv :=
  { treeExists := false
    branchLocal := false
    lsRemoteOut := ""
    symbolicRefOut := "refs/remotes/origin/main\n" }

/-- C5 counterexample: the `gtwsp` variant of `ensure_worktree` (one of the
claim's two cited implementations), on a branch that exists neither locally
nor on the remote and with default branch `main`, issues a `worktree add`
whose start-point argument is the bare `main`, not `origin/main`. -/
theorem c5_counterexample :
    (gtwsp_ensure_worktree newBranchEnv "/ws/tree" "feature").getLast? =
      some ["git", "worktree", "add", "-b", "feature", "/ws/tree", "main"] ∧
    ("main" : String) ≠ "origin/main" := by
  refine ⟨rfl, ?_⟩
  decide

/-- C5 (amended): the claim holds for the `grv` implementation of
`ensure_worktree`: when the branch exists neither locally nor on the remote,
the issued `worktree add`'s start-point argument is exactly `origin/<base>`
with `<base>` the explicit (non-empty) `from_branch` when supplied and the
repository's default branch otherwise.  The earlier `gtwsp` variant instead
passes the bare default-branch name and accepts no explicit base. -/
theorem c5_new_branch_base_amended (env : WorktreeEnv) (tp b : String)
    (fb : Option String) (h1 : env.treeExists = false)
    (h2 : env.branchLocal = false) (h3 : pyStrip env.lsRemoteOut = "") :
    (∀ d, fb = some d → d ≠ "" →
      (ensure_worktree env tp b fb).getLast? =
        some ["git", "worktree", "add", "-b", b, tp, "origin/" ++ d]) ∧
    (fb = none →
      (ensure_worktree env tp b fb).getLast? =
        some ["git", "worktree", "add", "-b", b, tp,
              "origin/" ++ get_default_branch env.symbolicRefOut]) := by
  constructor
  · intro d hd hne
    subst hd
    simp [ensure_worktree, h1, h2, h3, hne]
  · intro hn
    subst hn
    simp [ensure_worktree, h1, h2, h3]

/-- Closed witness for `c5_new_branch_base_amended`: with default branch
`main`, no explicit base resolves the start-point to `origin/main`, and
`--from develop` resolves it to `origin/develop`. -/
theorem c5_new_branch_base_amended_witness :
    (ensure_worktree newBranchEnv "/ws/tree" "feature" (some "develop")).getLast? =
      some ["git", "worktree", "add", "-b", "feature", "/ws/tree", "origin/develop"] ∧
    (ensure_worktree newBranchEnv "/ws/tree" "feature" none).getLast? =
      some ["git", "worktree", "add", "-b", "feature", "/ws/tree", "origin/main"] := by
  constructor
  · exact (c5_new_branch_base_amended newBranchEnv "/ws/tree" "feature" (some "develop")
      rfl rfl rfl).1 "develop" rfl (by decide)
  · have h := (c5_new_branch_base_amended newBranchEnv "/ws/tree" "feature" none
      rfl rfl rfl).2 rfl
    rw [h]
    rfl

/-! ## `grv/status.py` — branch status evaluator

`get_branch_status` runs five git subprocesses; the world below records what
each would answer.  The `rev-list` query is keyed by its range argument, since
which range is asked for is itself part of what the claims check.  The
function returns the computed `BranchStatus` (or the `ValueError` that
`int(...)` would raise on a non-numeric `rev-list` stdout) together with the
trace of issued argv vectors. -/

/-- Maximal digit prefix and the remainder of a character list. -/
def takeDigits : List Char → List Char × List Char
  | [] => ([], [])
  | c :: cs =>
    if c.isDigit then ((c :: (takeDigits cs).1), (takeDigits cs).2)
    else ([], c :: cs)

theorem takeDigits_snd_length (l : List Char) : (takeDigits l).2.length ≤ l.length := by
  induction l with
  | nil => simp [takeDigits]
  | cons c cs ih =>
    by_cases h : c.isDigit
    · simp only [takeDigits, h, if_true]
      exact Nat.le_succ_of_le ih
    · simp [takeDigits, h]

/-- `re.search(r"(\d+) <word>", s).group(1)`: the digit run of the leftmost
match of "one or more digits followed by the literal `w`".  The regex engine
tries every start position left to right; at a digit it takes the maximal
digit run (backtracking to a shorter run never helps, since `w` starts with a
non-digit and a shortened run is followed by a digit) and checks the literal.
Scanning every position — rather than jumping past a failed run — returns the
same leftmost match, because all positions inside a failed run see the same
remainder and fail too. -/
def findNumBefore (w : List Char) : List Char → Option (List Char)
  | [] => none
  | c :: cs =>
    if c.isDigit && w.isPrefixOf (takeDigits (c :: cs)).2 then
      some (takeDigits (c :: cs)).1
    else findNumBefore w cs

/-- Numeric value of a digit run (what `int` returns on a `\d+` group). -/
def digitsVal (l : List Char) : Nat :=
  l.foldl (fun n c => 10 * n + (c.toNat - '0'.toNat)) 0

/-- `int(m.group(1)) if m else 0` for a `(\d+) <word>` regex search. -/
def numFromPattern (w summary : List Char) : Nat :=
  match findNumBefore w summary with
  | some run => digitsVal run
  | none => 0

/-- `result.stdout.strip().split("\n")[-1]`, the diff-stat summary line. -/
def diffSummaryLine (out : String) : List Char :=
  (pySplitChar '\n' (pyStripL out.data)).getLastD []

/-- The diff-stat parsing step of `get_branch_status`
(`src/grv/status.py` lines 94–102, with `INSERTION_PATTERN` and
`DELETION_PATTERN` from `src/grv/constants.py` lines 31–32), returning
`(uncommitted, insertions, deletions)`. -/
def parseDiffStat (out : String) : Nat × Nat × Nat :=
  if pyStripL out.data = [] then (0, 0, 0)
  else if pyContains "insertion".data (diffSummaryLine out)
      || pyContains "deletion".data (diffSummaryLine out) then
    (numFromPattern " insertion".data (diffSummaryLine out)
       + numFromPattern " deletion".data (diffSummaryLine out),
     numFromPattern " insertion".data (diffSummaryLine out),
     numFromPattern " deletion".data (diffSummaryLine out))
  else (0, 0, 0)

structure StatusWorld where
  /-- stdout of `git ls-remote --heads origin <branch>` (run in the trunk). -/
  lsRemoteOut : String
  /-- stdout of `git symbolic-ref refs/remotes/origin/HEAD` (get_default_branch). -/
  symbolicRefOut : String
  /-- stdout of `git branch --merged origin/<default>` (run in the worktree). -/
  branchMergedOut : String
  /-- `git rev-list --count <range>`: range ↦ (returncode == 0, stdout). -/
  revList : String → Bool × String
  /-- stdout of `git diff --stat HEAD` (run in the worktree). -/
  diffStatOut : String

/-- `get_branch_status` from `src/grv/status.py` lines 50–113 (the `grove`
variant differs only in inlining the named constants).  Returns the computed
status — or the `ValueError` that `int(result.stdout.strip())` would raise —
together with the trace of subprocess argv vectors in source order.  A failure
of the `symbolic-ref` query inside `get_default_branch` would propagate
(`check=True`) and is outside the model, which records its success stdout. -/
def get_branch_status (w : StatusWorld) (treePath : PyPath) (branch : String) :
    Except String BranchStatus × List (List String) :=
  let hasRemote := !(pyStripL w.lsRemoteOut.data).isEmpty
  let defaultBranch := get_default_branch w.symbolicRefOut
  let merged := (pySplitChar '\n' (pyStripL w.branchMergedOut.data)).map
    (fun b => lstripBy (fun c => c = '*' || c = ' ') (pyStripL b))
  let isMerged := merged.contains branch.data
  let range :=
    if hasRemote then "origin/" ++ branch ++ ".." ++ branch
    else "origin/" ++ defaultBranch ++ ".." ++ branch
  let rl := w.revList range
  let unpushedOpt := if rl.1 then pyInt (pyStripL rl.2.data) else some 0
  let result : Except String BranchStatus :=
    match unpushedOpt with
    | none => .error "ValueError: invalid literal for int() with base 10"
    | some unpushed =>
      .ok { name := branch
            path := treePath
            has_remote := hasRemote
            is_merged := isMerged
            unpushed_commits := unpushed
            uncommitted_changes := (parseDiffStat w.diffStatOut).1
            insertions := (parseDiffStat w.diffStatOut).2.1
            deletions := (parseDiffStat w.diffStatOut).2.2 }
  let diffTrace : List (List String) :=
    match unpushedOpt with
    | none => []
    | some _ => [["git", "diff", "--stat", "HEAD"]]
  (result,
   [["git", "ls-remote", "--heads", "origin", branch], symRefCmd,
    ["git", "branch", "--merged", "origin/" ++ defaultBranch],
    ["git", "rev-list", "--count", range]] ++ diffTrace)

/-- C6: `get_branch_status` issues its commit count over exactly
`origin/<branch>..<branch>` when the branch has a remote counterpart and
`origin/<default>..<branch>` otherwise, and a non-zero exit of that `rev-list`
invocation yields `unpushed_commits = 0` without raising. -/
theorem c6_unpushed_count (w : StatusWorld) (p : PyPath) (b : String) :
    (["git", "rev-list", "--count",
        if !(pyStripL w.lsRemoteOut.data).isEmpty
        then "origin/" ++ b ++ ".." ++ b
        else "origin/" ++ get_default_branch w.symbolicRefOut ++ ".." ++ b]
      ∈ (get_branch_status w p b).2) ∧
    ((w.revList (if !(pyStripL w.lsRemoteOut.data).isEmpty
        then "origin/" ++ b ++ ".." ++ b
        else "origin/" ++ get_default_branch w.symbolicRefOut ++ ".." ++ b)).1 = false →
      ∃ s, (get_branch_status w p b).1 = .ok s ∧ s.unpushed_commits = 0) := by
  constructor
  · exact List.mem_append_left _ (List.mem_cons_of_mem _ (List.mem_cons_of_mem _
      (List.mem_cons_of_mem _ (List.mem_cons_self _ _))))
  · intro hfail
    simp only [get_branch_status]
    rw [hfail]
    exact ⟨_, rfl, rfl⟩

/-- A world in which the `rev-list` count invocation fails (mirrors
`tests/test_status.py::test_rev_list_failure`). -/
def revListFailWorld : StatusWorld :=
  { lsRemoteOut := "abc refs/heads/f\n"
    symbolicRefOut := "refs/remotes/origin/main\n"
    branchMergedOut := ""
    revList := fun _ => (false, "")
    diffStatOut := "" }

/-- Closed witness for `c6_unpushed_count`. -/
theorem c6_unpushed_count_witness :
    ["git", "rev-list", "--count", "origin/feature..feature"]
      ∈ (get_branch_status revListFailWorld ["tmp", "feature"] "feature").2 ∧
    ∃ s, (get_branch_status revListFailWorld ["tmp", "feature"] "feature").1 = .ok s ∧
      s.unpushed_commits = 0 := by
  have h := c6_unpushed_count revListFailWorld ["tmp", "feature"] "feature"
  exact ⟨h.1, h.2 rfl⟩

/-- The world of `tests/test_status.py::test_with_uncommitted_changes`: a
remote branch, nothing unpushed, and a working tree with 2 insertions and
3 deletions. -/
def diffWorld : StatusWorld :=
  { lsRemoteOut := "abc refs/heads/f\n"
    symbolicRefOut := "refs/remotes/origin/main\n"
    branchMergedOut := ""
    revList := fun _ => (true, "0\n")
    diffStatOut := " f.py | 5 ++---\n 1 file, 2 insertions(+), 3 deletions(-)\n" }

/-- The `BranchStatus` that `get_branch_status` computes in `diffWorld`. -/
def diffStatus : BranchStatus :=
  { name := "feature"
    path := ["tmp", "feature"]
    has_remote := true
    is_merged := false
    unpushed_commits := 0
    uncommitted_changes := 5
    insertions := 2
    deletions := 3 }

/-- C7: the diff-stat parsing step of `get_branch_status` turns the summary
line `"1 file, 2 insertions(+), 3 deletions(-)"` into
`uncommitted=5, insertions=2, deletions=3` (also end-to-end through
`get_branch_status`), and any diff output whose last line mentions neither
insertions nor deletions parses to all zeros without an error. -/
theorem c7_diff_stat_parsing :
    parseDiffStat "1 file, 2 insertions(+), 3 deletions(-)" = (5, 2, 3) ∧
    (get_branch_status diffWorld ["tmp", "feature"] "feature").1 = .ok diffStatus ∧
    ∀ out : String,
      pyContains "insertion".data (diffSummaryLine out) = false →
      pyContains "deletion".data (diffSummaryLine out) = false →
      parseDiffStat out = (0, 0, 0) := by
  refine ⟨by rfl, by rfl, ?_⟩
  intro out hins hdel
  unfold parseDiffStat
  split
  · rfl
  · rw [hins, hdel]
    rfl

/-- Closed witness for `c7_diff_stat_parsing`: a rename-only diff whose
summary line has no insertion/deletion counts parses to zeros. -/
theorem c7_diff_stat_parsing_witness :
    parseDiffStat " a.txt => b.txt | 0\n 1 file changed" = (0, 0, 0) :=
  c7_diff_stat_parsing.2.2 " a.txt => b.txt | 0\n 1 file changed"
    (by decide) (by decide)

theorem parseDiffStat_sum (out : String) :
    (parseDiffStat out).1 = (parseDiffStat out).2.1 + (parseDiffStat out).2.2 := by
  unfold parseDiffStat
  split
  · rfl
  · split <;> rfl

/-- C10: every `BranchStatus` constructed by `get_branch_status` satisfies
`uncommitted_changes = insertions + deletions` — each branch of the diff-stat
parse establishes the sum relation (all zeros, or the exact sum). -/
theorem c10_uncommitted_is_sum (w : StatusWorld) (p : PyPath) (b : String)
    (s : BranchStatus) (h : (get_branch_status w p b).1 = .ok s) :
    s.uncommitted_changes = s.insertions + s.deletions := by
  simp only [get_branch_status] at h
  split at h
  · simp at h
  · simp only [Except.ok.injEq] at h
    subst h
    exact parseDiffStat_sum w.diffStatOut

/-- Closed witness for `c10_uncommitted_is_sum`. -/
theorem c10_uncommitted_is_sum_witness :
    diffStatus.uncommitted_changes = diffStatus.insertions + diffStatus.deletions :=
  c10_uncommitted_is_sum diffWorld ["tmp", "feature"] "feature" diffStatus (by rfl)

/-! ## `grv/cli.py` — cleanup orchestrator

The bulk `clean` command and the targeted `_clean_branch` helper are embedded
as functions from a world (what the read-only scans would answer) to a result
recording the computed clean list, the emitted messages, the side effects in
order (mutating git subprocesses, directory removals, confirmation prompts),
and how the command ended.  The underlying `get_branch_status` is the
evaluator modelled above; here its result per branch is an oracle input, the
way the repository's own CLI tests patch it. -/

/-- `BranchInfo` from `src/grv/status.py` lines 19–24. -/
structure BranchInfo where
  name : String
  path : PyPath
  deriving Repr, DecidableEq

/-- An observable side effect of the cleanup commands. -/
inductive Effect
  /-- A mutating git subprocess: `subprocess.run(argv, cwd=cwd)`. -/
  | runCmd (cwd : PyPath) (argv : List String)
  /-- `shutil.rmtree(path)`. -/
  | rmtree (path : PyPath)
  /-- `click.confirm(prompt)`. -/
  | confirm (prompt : String)
  deriving Repr, DecidableEq

inductive CleanOutcome
  /-- The command ran to the end. -/
  | completed
  /-- `click.confirm(..., abort=True)` was declined. -/
  | abortedByUser
  /-- `b.path.parts.index("tree_branches")` raised `ValueError`. -/
  | valueError
  deriving Repr, DecidableEq

structure CleanResult where
  /-- The branches the scan found safe to clean (what dry-run reports). -/
  toClean : List BranchStatus
  /-- Side effects, in program order. -/
  effects : List Effect
  outcome : CleanOutcome
  deriving Repr

/-- The read-only inputs of `grv`'s `clean` command. -/
structure CleanWorld where
  /-- `get_all_repos()`: `(name, repo_path)` pairs. -/
  repos : List (String × PyPath)
  /-- `get_repo_branches_fast(repo_path)` during the scan. -/
  branchesFast : PyPath → List BranchInfo
  /-- `get_branch_status(tree_path, trunk_path, name)`, as an oracle. -/
  statusOf : PyPath → PyPath → String → BranchStatus
  /-- `get_repo_branches_fast(repo_root)` re-queried after the removals. -/
  branchesFastAfter : PyPath → List BranchInfo

/-- The status scan of `clean` (`src/grv/cli.py` lines 236–248): every branch
of every repository, evaluated against the trunk of its repository. -/
def scanStatuses (w : CleanWorld) : List BranchStatus :=
  (w.repos.flatMap (fun r => (w.branchesFast r.2).map (fun b => (r.2, b)))).map
    (fun rb => w.statusOf rb.2.path (rb.1 ++ ["trunk"]) rb.2.name)

/-- The removal loop of `clean` (lines 266–277): per safe branch, locate the
repository root above `tree_branches` (a missing component is Python's
`ValueError`, which stops the loop with the effects so far), remember it as
affected, and run the non-forced worktree and branch removal in its trunk.
Returns `(effects, affected roots in first-use order, no ValueError)`. -/
def removalLoop : List BranchStatus → List Effect × List PyPath × Bool
  | [] => ([], [], true)
  | b :: rest =>
    match b.path.findIdx? (fun c => c = "tree_branches") with
    | none => ([], [], false)
    | some idx =>
      let repoRoot := b.path.take idx
      let r := removalLoop rest
      ([Effect.runCmd (repoRoot ++ ["trunk"]) ["git", "worktree", "remove", pathStr b.path],
        Effect.runCmd (repoRoot ++ ["trunk"]) ["git", "branch", "-d", b.name]] ++ r.1,
       repoRoot :: r.2.1,
       r.2.2)

/-- The empty-repository sweep of `clean` (lines 279–288): every affected
repository that now has no worktrees left is removed recursively.  (The
source iterates a Python `set`; the model iterates the affected roots
deduplicated in first-use order, which fixes one of the set's possible
iteration orders.) -/
def emptyRepoSweep (w : CleanWorld) : List PyPath → List Effect
  | [] => []
  | r :: rest =>
    (if (w.branchesFastAfter r).isEmpty then [Effect.rmtree r] else [])
      ++ emptyRepoSweep w rest

/-- `clean` from `src/grv/cli.py` lines 226–293. -/
def clean (w : CleanWorld) (dryRun force confirmAnswer : Bool) : CleanResult :=
  if w.repos.isEmpty then ⟨[], [], .completed⟩
  else if (w.repos.flatMap (fun r => (w.branchesFast r.2).map (fun b => (r.2, b)))).isEmpty
    then ⟨[], [], .completed⟩
  else
    let toClean := (scanStatuses w).filter (fun s => s.is_safe_to_clean)
    if toClean.isEmpty then ⟨[], [], .completed⟩
    else if dryRun then ⟨toClean, [], .completed⟩
    else
      let promptEffs : List Effect :=
        if force then []
        else [.confirm ("Remove " ++ toString toClean.length ++ " worktree(s)?")]
      if !force && !confirmAnswer then ⟨toClean, promptEffs, .abortedByUser⟩
      else
        let loop := removalLoop toClean
        if loop.2.2 then
          ⟨toClean, promptEffs ++ loop.1 ++ emptyRepoSweep w loop.2.1.eraseDups, .completed⟩
        else ⟨toClean, promptEffs ++ loop.1, .valueError⟩

/-- The read-only inputs of `grove`'s `clean` command. -/
structure GroveWorld where
  /-- `get_all_repos()`. -/
  repos : List (String × PyPath)
  /-- `get_repo_branches(repo_path)`: the evaluated statuses per repository. -/
  repoBranches : PyPath → List BranchStatus

/-- `_get_cleanable_branches` from `src/grove/cli.py` lines 133–140. -/
def grove_get_cleanable (w : GroveWorld) : List BranchStatus :=
  (w.repos.flatMap (fun r => w.repoBranches r.2)).filter (fun s => s.is_safe_to_clean)

/-- `clean` from `src/grove/cli.py` lines 95–130: the earlier variant — same
shape, trunk located two levels above the worktree, and no empty-repository
sweep. -/
def grove_clean (w : GroveWorld) (dryRun force confirmAnswer : Bool) : CleanResult :=
  let toClean := grove_get_cleanable w
  if toClean.isEmpty then ⟨[], [], .completed⟩
  else if dryRun then ⟨toClean, [], .completed⟩
  else
    let promptEffs : List Effect :=
      if force then []
      else [.confirm ("Remove " ++ toString toClean.length ++ " worktree(s)?")]
    if !force && !confirmAnswer then ⟨toClean, promptEffs, .abortedByUser⟩
    else
      ⟨toClean,
       promptEffs ++ toClean.flatMap (fun b =>
         [Effect.runCmd (b.path.dropLast.dropLast ++ ["trunk"])
            ["git", "worktree", "remove", pathStr b.path],
          Effect.runCmd (b.path.dropLast.dropLast ++ ["trunk"])
            ["git", "branch", "-d", b.name]]),
       .completed⟩

/-- C8: with dry-run enabled, both `clean` implementations perform the full
scan and safe-to-clean filtering and report the would-be removals, but emit
no confirmation prompt, run no mutating git command, and delete no repository
directory — the effect list is empty — and the command completes normally. -/
theorem c8_dry_run_no_mutation (w : CleanWorld) (gw : GroveWorld)
    (force confirmAnswer : Bool) :
    (clean w true force confirmAnswer).effects = [] ∧
    (clean w true force confirmAnswer).toClean =
      (scanStatuses w).filter (fun s => s.is_safe_to_clean) ∧
    (clean w true force confirmAnswer).outcome = .completed ∧
    (grove_clean gw true force confirmAnswer).effects = [] ∧
    (grove_clean gw true force confirmAnswer).toClean = grove_get_cleanable gw ∧
    (grove_clean gw true force confirmAnswer).outcome = .completed := by
  have hg : grove_clean gw true force confirmAnswer =
      ⟨grove_get_cleanable gw, [], .completed⟩ := by
    unfold grove_clean
    by_cases h : (grove_get_cleanable gw).isEmpty
    · rw [List.isEmpty_iff] at h
      simp [h]
    · simp [h]
  have hc : clean w true force confirmAnswer =
      ⟨(scanStatuses w).filter (fun s => s.is_safe_to_clean), [], .completed⟩ := by
    unfold clean
    by_cases h1 : w.repos.isEmpty
    · rw [List.isEmpty_iff] at h1
      simp [h1, scanStatuses]
    · simp only [h1, Bool.false_eq_true, if_false]
      by_cases h2 : (w.repos.flatMap
          (fun r => (w.branchesFast r.2).map (fun b => (r.2, b)))).isEmpty
      · rw [List.isEmpty_iff] at h2
        simp [h1, h2, scanStatuses]
      · simp only [h2, Bool.false_eq_true, if_false]
        by_cases h3 : ((scanStatuses w).filter (fun s => s.is_safe_to_clean)).isEmpty
        · rw [List.isEmpty_iff] at h3
          simp [h3]
        · simp [h3]
  rw [hg, hc]
  exact ⟨rfl, rfl, rfl, rfl, rfl, rfl⟩

/-- The read-only inputs of `_clean_branch`. -/
structure CleanBranchWorld where
  /-- `get_branch_status(path, trunk_path, branch_name)`, as an oracle. -/
  statusOf : PyPath → PyPath → String → BranchStatus
  /-- `get_repo_branches_fast(repo_root)` after the removal commands. -/
  branchesFastAfter : PyPath → List BranchInfo

structure CleanBranchResult where
  /-- The boolean return value; `none` models the uncaught `ValueError` of
  `path.parts.index("tree_branches")`. -/
  returned : Option Bool
  /-- The `click` messages, in order. -/
  msgs : List String
  /-- Side effects, in program order. -/
  effects : List Effect
  deriving Repr

/-- `_clean_branch` from `src/grv/cli.py` lines 157–197.  Unsafe and not
forced: report every failed condition and return `False` with no effect.
Otherwise remove the worktree (forced when `force`) and delete the branch
(`-D` when `force`, `-d` otherwise) in the trunk — both argv lists are
filtered of empty strings, as in the source — then remove the repository
directory recursively when no worktree remains. -/
def clean_branch (w : CleanBranchWorld) (path : PyPath) (branchName : String)
    (force : Bool) : CleanBranchResult :=
  match path.findIdx? (fun c => c = "tree_branches") with
  | none => ⟨none, [], []⟩
  | some idx =>
    let repoRoot := path.take idx
    let trunkPath := repoRoot ++ ["trunk"]
    let status := w.statusOf path trunkPath branchName
    if !force && !status.is_safe_to_clean then
      ⟨some false,
       ["Cannot clean '" ++ branchName ++ "' - not safe to remove."]
         ++ (if !status.has_remote then ["  - No remote branch found"] else [])
         ++ (if status.unpushed_commits > 0 then
              ["  - " ++ toString status.unpushed_commits ++ " unpushed commit(s)"]
             else [])
         ++ (if status.uncommitted_changes > 0 then
              ["  - " ++ toString status.uncommitted_changes ++ " uncommitted changes"]
             else []),
       []⟩
    else
      let headMsg :=
        if force && !status.is_safe_to_clean
        then "Force deleting '" ++ branchName ++ "'..."
        else "Cleaning '" ++ branchName ++ "'..."
      let rmEffs :=
        [Effect.runCmd trunkPath
          ((["git", "worktree", "remove", if force then "--force" else "",
             pathStr path]).filter (fun c => c ≠ "")),
         Effect.runCmd trunkPath
          ((["git", "branch", if force then "-D" else "-d",
             branchName]).filter (fun c => c ≠ ""))]
      if (w.branchesFastAfter repoRoot).isEmpty then
        ⟨some true,
         [headMsg, "  Removing empty repo " ++ (repoRoot.getLastD "") ++ "...", "Done."],
         rmEffs ++ [Effect.rmtree repoRoot]⟩
      else
        ⟨some true, [headMsg, "Done."], rmEffs⟩

/-- C9: a targeted single-branch clean without force, on a branch that fails
the safe-to-clean predicate, deletes nothing (no worktree removal, no branch
deletion, no repository-directory removal — no effect at all), returns
`False`, and reports each specific failed condition: the missing remote
branch, the N unpushed commits, and the N uncommitted changes. -/
theorem c9_unsafe_not_deleted (w : CleanBranchWorld) (path : PyPath)
    (branchName : String) (idx : Nat) (st : BranchStatus)
    (hidx : path.findIdx? (fun c => c = "tree_branches") = some idx)
    (hst : w.statusOf path (path.take idx ++ ["trunk"]) branchName = st)
    (hnotsafe : st.is_safe_to_clean = false) :
    (clean_branch w path branchName false).returned = some false ∧
    (clean_branch w path branchName false).effects = [] ∧
    (st.has_remote = false →
      "  - No remote branch found" ∈ (clean_branch w path branchName false).msgs) ∧
    (0 < st.unpushed_commits →
      "  - " ++ toString st.unpushed_commits ++ " unpushed commit(s)"
        ∈ (clean_branch w path branchName false).msgs) ∧
    (0 < st.uncommitted_changes →
      "  - " ++ toString st.uncommitted_changes ++ " uncommitted changes"
        ∈ (clean_branch w path branchName false).msgs) := by
  have hcb : clean_branch w path branchName false =
      ⟨some false,
       ["Cannot clean '" ++ branchName ++ "' - not safe to remove."]
         ++ (if !st.has_remote then ["  - No remote branch found"] else [])
         ++ (if st.unpushed_commits > 0 then
              ["  - " ++ toString st.unpushed_commits ++ " unpushed commit(s)"]
             else [])
         ++ (if st.uncommitted_changes > 0 then
              ["  - " ++ toString st.uncommitted_changes ++ " uncommitted changes"]
             else []),
       []⟩ := by
    unfold clean_branch
    rw [hidx]
    simp only [hst, hnotsafe, Bool.not_false, Bool.and_self, if_true]
  rw [hcb]
  refine ⟨rfl, rfl, ?_, ?_, ?_⟩
  · intro h
    simp [h]
  · intro h
    simp [h]
  · intro h
    simp [h]

/-- A concrete unsafe branch state: no remote, 2 unpushed commits,
5 uncommitted changes. -/
def unsafeStatus : BranchStatus :=
  { name := "feature"
    path := ["ws", "repos", "r1", "tree_branches", "feature"]
    has_remote := false
    is_merged := false
    unpushed_commits := 2
    uncommitted_changes := 5
    insertions := 3
    deletions := 2 }

/-- The `_clean_branch` world that always evaluates to `unsafeStatus`. -/
def unsafeWorld : CleanBranchWorld :=
  { statusOf := fun _ _ _ => unsafeStatus
    branchesFastAfter := fun _ => [] }

/-- Closed witness for `c9_unsafe_not_deleted`. -/
theorem c9_unsafe_not_deleted_witness :
    (clean_branch unsafeWorld ["ws", "repos", "r1", "tree_branches", "feature"]
        "feature" false).returned = some false ∧
    (clean_branch unsafeWorld ["ws", "repos", "r1", "tree_branches", "feature"]
        "feature" false).effects = [] ∧
    "  - No remote branch found"
      ∈ (clean_branch unsafeWorld ["ws", "repos", "r1", "tree_branches", "feature"]
          "feature" false).msgs ∧
    "  - " ++ toString (2 : Int) ++ " unpushed commit(s)"
      ∈ (clean_branch unsafeWorld ["ws", "repos", "r1", "tree_branches", "feature"]
          "feature" false).msgs ∧
    "  - " ++ toString (5 : Nat) ++ " uncommitted changes"
      ∈ (clean_branch unsafeWorld ["ws", "repos", "r1", "tree_branches", "feature"]
          "feature" false).msgs := by
  have h := c9_unsafe_not_deleted unsafeWorld
    ["ws", "repos", "r1", "tree_branches", "feature"] "feature" 3 unsafeStatus
    (by rfl) (by rfl) (by rfl)
  exact ⟨h.1, h.2.1, h.2.2.1 rfl, h.2.2.2.1 (by decide), h.2.2.2.2 (by decide)⟩

end Grv
